import Mathlib

/-!
Verification of the QQP text-classification pipeline
(`SparkAnalysisPython/QQP/text_classification_qqp.py`).

The Python script is embedded shallowly:

* a Spark dataframe row of the QQP TSV is a `Row` with the three columns the
  script touches (`question1`, `question2`, `is_duplicate`), each nullable;
* the result of `spark.read.csv` is a `ReadResult`: either a read/parse
  failure, or the parsed rows together with a flag recording whether the
  schema has an `is_duplicate` column;
* `load_qqp_data` is split into `loadTry` (the body of the `try:` block,
  returning `Except LoadError`) and the total `load_qqp_data` that applies
  the `except:` handler, which substitutes the hardcoded sample dataset;
* external library calls (gensim `FastText`, sklearn `LogisticRegression`
  fit/predict, sklearn weighted precision/recall/f1) are higher-order
  parameters of the embedding, since their internals are not repository
  code; the repository's own orchestration and dataflow are concrete;
* floating point is modelled by `ℚ`; wall-clock time by explicit phase
  durations threaded through `train_fasttext` exactly where `time.time()`
  is read in the script.
-/

namespace QQP

/-- A normalized record: the `(text, label)` pair the loader produces. -/
structure Record where
  text : String
  label : ℚ
deriving DecidableEq, Repr

/-- One raw row of the TSV source, restricted to the columns the script
reads.  Each cell is nullable (`Option`). -/
structure Row where
  question1 : Option String
  question2 : Option String
  is_duplicate : Option String
deriving DecidableEq, Repr

/-- Outcome of `spark.read.csv(file_path, header=True, sep="\t")`: either an
I/O or parse failure, or the rows plus whether the schema contains an
`is_duplicate` column (the script tests `"is_duplicate" in data.columns`). -/
inductive ReadResult where
  | err (msg : String)
  | ok (hasDupCol : Bool) (rows : List Row)
deriving DecidableEq, Repr

/-- The exceptions that can escape the body of the `try:` block in
`load_qqp_data`: the read/parse failure, the `AnalysisException` from
`select("text", "label")` when no `label` column was created, and the
`ValueError` raised when the processed dataset is empty. -/
inductive LoadError where
  | readError (msg : String)
  | missingLabelColumn
  | emptyDataset
deriving DecidableEq, Repr

/-- The numeric value of a string of decimal digits. -/
def digitsToNat (cs : List Char) : ℕ :=
  cs.foldl (fun n c => n * 10 + (c.toNat - 48)) 0

/-- Spark `cast("double")` applied to a string cell, for the value domain
this pipeline feeds it (the `is_duplicate` column holds decimal-digit
strings such as "0"/"1"): a digit string casts to the corresponding number,
anything unparseable casts to null. -/
def castDouble (s : String) : Option ℚ :=
  if s.data ≠ [] ∧ s.data.all Char.isDigit then some ((digitsToNat s.data : ℕ) : ℚ)
  else none

/-- `concat_ws(sep, c1, c2)`: joins the non-null cells with the separator;
null cells are skipped, and the result is never null. -/
def concatWs (sep : String) (cells : List (Option String)) : String :=
  String.intercalate sep (cells.filterMap id)

/-- The `text` column: `concat_ws(" [SEP] ", question1, question2)`. -/
def rowText (r : Row) : String :=
  concatWs " [SEP] " [r.question1, r.question2]

/-- The per-row effect of the training branch of `load_qqp_data`:
`withColumn("label", cast)` then `filter(isNotNull)` then
`filter(label == 0.0 or label == 1.0)` then the `text` construction.
Returns `none` exactly when the row is dropped. -/
def trainRecord (r : Row) : Option Record :=
  match r.is_duplicate.bind castDouble with
  | none => none
  | some l => if l = 0 ∨ l = 1 then some ⟨rowText r, l⟩ else none

/-- All surviving training records, in row order. -/
def trainRecords (rows : List Row) : List Record :=
  rows.filterMap trainRecord

/-- The per-row effect of the test branch: `withColumn("label", lit(0.0))`
plus the `text` construction.  `concat_ws` never yields null, so the final
`filter(col("text").isNotNull())` drops nothing. -/
def testRecord (r : Row) : Record :=
  ⟨rowText r, 0⟩

/-- The body of the `try:` block of `load_qqp_data`.  Branches exactly as
the script does: label handling for a non-test source with an
`is_duplicate` column, a constant 0.0 label for a test source, and in the
remaining case no `label` column exists so `select("text", "label")`
raises; finally `count == 0` raises the empty-dataset `ValueError`. -/
def loadTry (src : ReadResult) (is_test : Bool) : Except LoadError (List Record) :=
  match src with
  | .err m => .error (.readError m)
  | .ok hasDup rows =>
    if !is_test && hasDup then
      let recs := trainRecords rows
      if recs.length = 0 then .error .emptyDataset else .ok recs
    else if is_test then
      let recs := rows.map testRecord
      if recs.length = 0 then .error .emptyDataset else .ok recs
    else
      .error .missingLabelColumn

/-- The hardcoded 3-record sample dataset created by the `except:` handler. -/
def sampleData : List Record :=
  [⟨"How do I improve my English? [SEP] What are some ways to improve my English?", 1⟩,
   ⟨"What is the capital of France? [SEP] What is the population of Germany?", 0⟩,
   ⟨"How to lose weight fast? [SEP] What are some effective ways to lose weight quickly?", 1⟩]

/-- `load_qqp_data(file_path, is_test)`: the `try:` body with the blanket
`except Exception:` handler, which substitutes the sample dataset for any
escaping exception. -/
def load_qqp_data (src : ReadResult) (is_test : Bool) : List Record :=
  match loadTry src is_test with
  | .ok d => d
  | .error _ => sampleData

/-- Split a character list at whitespace runs, dropping empty pieces, as
Python `str.split()` with no argument does.  `acc` holds the characters of
the word currently being read, in reverse. -/
def splitWsAux : List Char → List Char → List String
  | [], acc => if acc = [] then [] else [String.mk acc.reverse]
  | c :: cs, acc =>
    if c.isWhitespace then
      if acc = [] then splitWsAux cs []
      else String.mk acc.reverse :: splitWsAux cs []
    else splitWsAux cs (c :: acc)

/-- `preprocess_text` from `train_fasttext`: a string is lower-cased
(character-wise, adequate for this ASCII corpus) and whitespace-split with
empty pieces dropped (Python `text.lower().split()`); a non-string
(modelled as `none`) yields the empty token list. -/
def preprocess_text : Option String → List String
  | some s => splitWsAux (s.data.map Char.toLower) []
  | none => []

/-- A trained gensim FastText model, as the pipeline consumes it: its
configured dimension (`model.vector_size`) and its vocabulary mapping
tokens to vectors (`model.wv`). -/
structure FTModel where
  vector_size : ℕ
  wv : List (String × List ℚ)
deriving DecidableEq, Repr

/-- `word in model.wv` / `model.wv[word]`: vocabulary lookup. -/
def FTModel.lookup (m : FTModel) (w : String) : Option (List ℚ) :=
  (m.wv.find? (fun p => p.1 = w)).map Prod.snd

/-- Element-wise vector addition (equal-length vectors). -/
def vecAdd (a b : List ℚ) : List ℚ :=
  List.zipWith (· + ·) a b

/-- `np.mean(word_vectors, axis=0)`: element-wise mean of a non-empty list
of equal-length vectors. -/
def vecMean : List (List ℚ) → List ℚ
  | [] => []
  | v :: vs => (List.foldl vecAdd v vs).map (fun x => x / ((vs.length : ℚ) + 1))

/-- `text_to_vector(text, model)`: tokenize, look up each in-vocabulary
token's vector (tokens outside `model.wv` are skipped by the comprehension
filter), return the zero vector of `model.vector_size` when nothing was
found, and the element-wise mean otherwise. -/
def text_to_vector (t : Option String) (m : FTModel) : List ℚ :=
  let word_vectors := (preprocess_text t).filterMap m.lookup
  if word_vectors.length = 0 then List.replicate m.vector_size 0
  else vecMean word_vectors

/-- `np.mean(ft_predictions == y_test)`: fraction of exact matches.  (For
empty inputs `np.mean` is NaN, which ℚ cannot express; division by zero
yields 0 here.  No claim evaluates the metric on empty input.) -/
def accuracyScore (preds y : List ℚ) : ℚ :=
  (List.zipWith (fun a b => if a = b then (1 : ℚ) else 0) preds y).sum / (preds.length : ℚ)

/-- The error sklearn raises from `fit` on a length mismatch or an empty
feature matrix (the spec's InvalidInput). -/
inductive TrainError where
  | invalidInput
deriving DecidableEq, Repr

/-- Durations of the successive phases of `train_fasttext` between the
`time.time()` read at function entry (`start_time`) and the `time.time()`
read after the metric computations: pandas conversion/cleaning, FastText
embedding training, vectorization of both sets, classifier fit, test-set
prediction, and metric computation. -/
structure PhaseTimes where
  prepare : ℚ
  embed : ℚ
  vectorize : ℚ
  fit : ℚ
  predict : ℚ
  metrics : ℚ
deriving DecidableEq, Repr

/-- What `train_fasttext` computes, with the internal FastText model and
feature matrices exposed for verification alongside the returned metric
tuple and `training_time`. -/
structure FTRunResult (α : Type) where
  model : FTModel
  clf : α
  X_train : List (List ℚ)
  X_test : List (List ℚ)
  ft_accuracy : ℚ
  ft_precision : ℚ
  ft_recall : ℚ
  ft_f1 : ℚ
  training_time : ℚ
deriving DecidableEq, Repr

/-- `train_fasttext(train_data, test_data, epochs)`.  The gensim FastText
trainer `ftTrain`, the sklearn classifier `fit`/`predict`, and the sklearn
weighted metrics `ps`/`rs`/`fs` (each called as in the script, labels
first) are external-library parameters; everything else mirrors the
script's dataflow.  `train_pandas.dropna()` and `astype(float)` are
identities here because `Record` fields are total.  The wall clock starts
at `t0` on entry and each phase advances it by its duration; the reported
`training_time` is the clock after the metric computations minus `t0`. -/
def train_fasttext {α : Type}
    (ftTrain : List (List String) → ℕ → FTModel)
    (fit : List (List ℚ) → List ℚ → Except TrainError α)
    (predict : α → List (List ℚ) → List ℚ)
    (ps rs fs : List ℚ → List ℚ → ℚ)
    (train_data test_data : List Record) (epochs : ℕ)
    (t0 : ℚ) (pt : PhaseTimes) : Except TrainError (FTRunResult α) :=
  let start_time := t0
  let clock := start_time + pt.prepare
  let train_sentences := train_data.map (fun r => preprocess_text (some r.text))
  let fasttext_model := ftTrain train_sentences epochs
  let clock := clock + pt.embed
  let X_train := train_data.map (fun r => text_to_vector (some r.text) fasttext_model)
  let y_train := train_data.map Record.label
  let X_test := test_data.map (fun r => text_to_vector (some r.text) fasttext_model)
  let y_test := test_data.map Record.label
  let clock := clock + pt.vectorize
  match fit X_train y_train with
  | .error e => .error e
  | .ok clf =>
    let clock := clock + pt.fit
    let ft_predictions := predict clf X_test
    let clock := clock + pt.predict
    let ft_accuracy := accuracyScore ft_predictions y_test
    let ft_precision := ps y_test ft_predictions
    let ft_recall := rs y_test ft_predictions
    let ft_f1 := fs y_test ft_predictions
    let clock := clock + pt.metrics
    let training_time := clock - start_time
    .ok ⟨fasttext_model, clf, X_train, X_test,
         ft_accuracy, ft_precision, ft_recall, ft_f1, training_time⟩

/-- The `results` dictionary of `main`: six parallel lists appended per
model variant. -/
structure ResultsTable where
  model_names : List String
  accuracies : List ℚ
  precisions : List ℚ
  recalls : List ℚ
  f1s : List ℚ
  training_times : List ℚ
deriving DecidableEq, Repr

/-- The empty `results` dictionary created at the start of `main`. -/
def emptyResults : ResultsTable := ⟨[], [], [], [], [], []⟩

/-- One append block of `main` (`results["Model"].append(...)` etc.). -/
def appendResult (t : ResultsTable) (name : String)
    (metrics : ℚ × ℚ × ℚ × ℚ) (time : ℚ) : ResultsTable :=
  ⟨t.model_names ++ [name], t.accuracies ++ [metrics.1],
   t.precisions ++ [metrics.2.1], t.recalls ++ [metrics.2.2.1],
   t.f1s ++ [metrics.2.2.2], t.training_times ++ [time]⟩

/-- The variant-running portion of `main`: the single FastText variant is
run with no surrounding exception handler, and its metrics appended to the
`results` table.  An exception from `train_fasttext` therefore propagates
out of `main` (modelled as the `Except` error). -/
def main_run {α : Type}
    (ftTrain : List (List String) → ℕ → FTModel)
    (fit : List (List ℚ) → List ℚ → Except TrainError α)
    (predict : α → List (List ℚ) → List ℚ)
    (ps rs fs : List ℚ → List ℚ → ℚ)
    (train_data test_data : List Record) (epochs : ℕ)
    (t0 : ℚ) (pt : PhaseTimes) : Except TrainError ResultsTable :=
  match train_fasttext ftTrain fit predict ps rs fs train_data test_data epochs t0 pt with
  | .error e => .error e
  | .ok r =>
    .ok (appendResult emptyResults "FastText"
      (r.ft_accuracy, r.ft_precision, r.ft_recall, r.ft_f1) r.training_time)

/-- The training-time span the specification describes, restated from its
words for comparison with the code: from the start of feature construction
(embedding training, then vectorization) through completion of classifier
fitting, excluding prediction and metric computation. -/
def spec_training_time (pt : PhaseTimes) : ℚ :=
  pt.embed + pt.vectorize + pt.fit

/-- A concrete gensim trainer instantiation: dimension-100 model with an
empty vocabulary (used only to evaluate the orchestration on examples). -/
def ftTrain0 : List (List String) → ℕ → FTModel := fun _ _ => ⟨100, []⟩

/-- A concrete classifier fit that always succeeds. -/
def fitOk : List (List ℚ) → List ℚ → Except TrainError Unit := fun _ _ => .ok ()

/-- The input validation sklearn `fit` performs: a length mismatch between
the feature matrix and the labels, or an empty feature matrix, raises
(ValueError, the spec's InvalidInput); the numeric fitting itself is not
modelled. -/
def sklearnFit : List (List ℚ) → List ℚ → Except TrainError Unit := fun X y =>
  if X.length = y.length ∧ X.length ≠ 0 then .ok () else .error .invalidInput

/-- A concrete predictor: the constant-0 decision rule. -/
def predict0 : Unit → List (List ℚ) → List ℚ := fun _ X => X.map (fun _ => 0)

/-- A concrete weighted-metric function (value irrelevant to the claims). -/
def metric0 : List ℚ → List ℚ → ℚ := fun _ _ => 0

/-- Concrete per-phase durations used in the timing examples: 5 seconds of
prediction and 2 seconds of metric computation, 1 second for each
remaining phase. -/
def pt1 : PhaseTimes := ⟨1, 1, 1, 1, 5, 2⟩

/-! ## Theorems -/

/-- Claim C1: for every training-set load whose source read raises an I/O
or parsing error, `load_qqp_data` does not propagate the failure: it
returns the fixed 3-record sample dataset, whose labels are 1.0, 0.0, 1.0
in that order and whose text fields are all non-empty. -/
theorem C1_read_error_fallback (msg : String) :
    load_qqp_data (.err msg) false = sampleData ∧
    sampleData.length = 3 ∧
    sampleData.map Record.label = [1, 0, 1] ∧
    ∀ r ∈ sampleData, r.text ≠ "" := by
  exact ⟨rfl, rfl, by decide, by decide⟩

/-- Claim C2, counterexample: on a source that reads successfully but
leaves zero valid records after label filtering, the empty-dataset error
is raised inside the `try:` block, so `load_qqp_data`'s own `except:`
handler catches it and substitutes the 3-record sample dataset — the
failure is not surfaced to the caller, contradicting the claim. -/
theorem C2_empty_dataset_not_surfaced :
    loadTry (.ok true [⟨some "a", some "b", some "x"⟩]) false = .error .emptyDataset ∧
    load_qqp_data (.ok true [⟨some "a", some "b", some "x"⟩]) false = sampleData :=
  ⟨rfl, rfl⟩

/-- Claim C2, amended: when zero valid records remain after filtering, the
`try:` body does raise the empty-dataset error, but the blanket `except:`
of `load_qqp_data` catches it, and the caller receives the 3-record sample
dataset rather than the error. -/
theorem C2_empty_dataset_recovered (rows : List Row) (h : trainRecords rows = []) :
    loadTry (.ok true rows) false = .error .emptyDataset ∧
    load_qqp_data (.ok true rows) false = sampleData := by
  have h1 : loadTry (.ok true rows) false = .error .emptyDataset := by
    unfold loadTry
    simp [h]
  exact ⟨h1, by unfold load_qqp_data; rw [h1]⟩

/-- Witness for the amended claim C2, at a one-row source whose
`is_duplicate` cell fails the numeric cast. -/
theorem C2_empty_dataset_recovered_witness :
    loadTry (.ok true [Row.mk (some "a") (some "b") (some "x")]) false = .error .emptyDataset ∧
    load_qqp_data (.ok true [Row.mk (some "a") (some "b") (some "x")]) false = sampleData :=
  C2_empty_dataset_recovered [Row.mk (some "a") (some "b") (some "x")] (by decide)

/-- Claim C10: when `is_evaluation_set` is false and the parsed source has
no `is_duplicate` column, no `label` column is ever created, so the
`select("text", "label")` projection fails and `load_qqp_data` returns the
3-record sample dataset rather than a labeled projection of the real
data. -/
theorem C10_missing_label_column_fallback (rows : List Row) :
    loadTry (.ok false rows) false = .error .missingLabelColumn ∧
    load_qqp_data (.ok false rows) false = sampleData := by
  have h : loadTry (.ok false rows) false = .error .missingLabelColumn := rfl
  exact ⟨h, by unfold load_qqp_data; rw [h]⟩

/-- Claim C5: in every successful training-set load from a source with an
`is_duplicate` column, every returned record's label is exactly 0.0 or
1.0 — rows whose cast fails, whose cell is absent, or whose cast yields
any other value have been dropped by the filters. -/
theorem C5_train_labels_binary (rows : List Row) (d : List Record)
    (h : loadTry (.ok true rows) false = .ok d) :
    ∀ r ∈ d, r.label = 0 ∨ r.label = 1 := by
  intro r hr
  unfold loadTry at h
  simp only [Bool.not_false, Bool.true_and, if_true] at h
  split at h
  · exact absurd h (by simp)
  · rw [Except.ok.injEq] at h
    subst h
    rcases List.mem_filterMap.mp hr with ⟨row, _, hrow⟩
    unfold trainRecord at hrow
    split at hrow
    · exact absurd hrow (by simp)
    · rename_i l _
      split at hrow
      · rename_i hl
        rw [Option.some.injEq] at hrow
        subst hrow
        exact hl
      · exact absurd hrow (by simp)

/-- Witness for claim C5, at a one-row source with `is_duplicate` "1". -/
theorem C5_train_labels_binary_witness :
    (Record.mk "a [SEP] b" 1).label = 0 ∨ (Record.mk "a [SEP] b" 1).label = 1 :=
  C5_train_labels_binary [Row.mk (some "a") (some "b") (some "1")]
    [Record.mk "a [SEP] b" 1] rfl (Record.mk "a [SEP] b" 1) (by simp)

/-- Claim C8, counterexample: when an evaluation-set load falls back to
the built-in sample dataset (here: source unreachable), the returned
records carry the sample labels 1.0, 0.0, 1.0 — not the placeholder 0.0
the claim asserts for every evaluation-set record. -/
theorem C8_fallback_labels_not_zero :
    ¬ (∀ r ∈ load_qqp_data (.err "unreachable") true, r.label = 0) := by
  decide

/-- Claim C8, amended: every record of a *successful* evaluation-set load
carries the placeholder label 0.0; when the load falls back to the
built-in sample dataset the labels are 1.0, 0.0, 1.0 instead. -/
theorem C8_eval_labels_zero (src : ReadResult) (d : List Record)
    (h : loadTry src true = .ok d) :
    load_qqp_data src true = d ∧ ∀ r ∈ d, r.label = 0 := by
  refine ⟨by unfold load_qqp_data; rw [h], ?_⟩
  intro r hr
  cases src with
  | err m => exact absurd h (by simp [loadTry])
  | ok hasDup rows =>
    unfold loadTry at h
    simp at h
    split at h
    · exact absurd h (by simp)
    · rw [Except.ok.injEq] at h
      subst h
      rcases List.mem_map.mp hr with ⟨row, _, hrow⟩
      subst hrow
      rfl

/-- Witness for the amended claim C8, at a successful one-row
evaluation-set load. -/
theorem C8_eval_labels_zero_witness :
    load_qqp_data (.ok true [Row.mk (some "a") (some "b") none]) true =
      [Record.mk "a [SEP] b" 0] ∧
    (Record.mk "a [SEP] b" 0).label = 0 :=
  ⟨(C8_eval_labels_zero (.ok true [Row.mk (some "a") (some "b") none])
      [Record.mk "a [SEP] b" 0] rfl).1,
   (C8_eval_labels_zero (.ok true [Row.mk (some "a") (some "b") none])
      [Record.mk "a [SEP] b" 0] rfl).2 (Record.mk "a [SEP] b" 0) (by simp)⟩

/-- Claim C9: a valid raw pair whose `is_duplicate` is "0" or "1" becomes
a record whose label is exactly 0.0 or 1.0 and whose text is `question1`,
then the literal separator " [SEP] ", then `question2`. -/
theorem C9_valid_pair_record (q1 q2 s : String) (h : s = "0" ∨ s = "1") :
    trainRecord ⟨some q1, some q2, some s⟩ =
      some ⟨q1 ++ " [SEP] " ++ q2, if s = "1" then 1 else 0⟩ ∧
    ((if s = "1" then (1 : ℚ) else 0) = 0 ∨ (if s = "1" then (1 : ℚ) else 0) = 1) := by
  have hrow : ∀ t, rowText ⟨some q1, some q2, t⟩ = q1 ++ " [SEP] " ++ q2 := fun _ => rfl
  rcases h with h | h <;> subst h
  · have hc : castDouble "0" = some 0 := by decide
    refine ⟨?_, by decide⟩
    unfold trainRecord
    simp [hc, hrow]
  · have hc : castDouble "1" = some 1 := by decide
    refine ⟨?_, by decide⟩
    unfold trainRecord
    simp [hc, hrow]

/-- Witness for claim C9, at the pair ("a", "b") with `is_duplicate` "0". -/
theorem C9_valid_pair_record_witness :
    trainRecord ⟨some "a", some "b", some "0"⟩ =
      some ⟨"a" ++ " [SEP] " ++ "b", if ("0" : String) = "1" then 1 else 0⟩ ∧
    ((if ("0" : String) = "1" then (1 : ℚ) else 0) = 0 ∨
      (if ("0" : String) = "1" then (1 : ℚ) else 0) = 1) :=
  C9_valid_pair_record "a" "b" "0" (Or.inl rfl)

/-- Claim C3, counterexample: with an empty training set, the sklearn fit
validation rejects the empty feature matrix (the spec's InvalidInput), and
because `main` wraps `train_fasttext` in no exception handler, the error
propagates out of the run — `main` throws instead of recording the variant
as failed and continuing, and no results table is produced. -/
theorem C3_runner_throws_on_invalid_input :
    train_fasttext ftTrain0 sklearnFit predict0 metric0 metric0 metric0
      [] [⟨"b", 0⟩] 3 0 pt1 = .error .invalidInput ∧
    main_run ftTrain0 sklearnFit predict0 metric0 metric0 metric0
      [] [⟨"b", 0⟩] 3 0 pt1 = .error .invalidInput :=
  ⟨rfl, rfl⟩

/-- Claim C3, amended: `main` runs its single FastText variant with no
surrounding exception handler, so any training error propagates out of the
run unchanged — the run aborts with the error and no results table (hence
no entry for any variant) is produced. -/
theorem C3_variant_error_propagates {α : Type}
    (ftTrain : List (List String) → ℕ → FTModel)
    (fit : List (List ℚ) → List ℚ → Except TrainError α)
    (predict : α → List (List ℚ) → List ℚ)
    (ps rs fs : List ℚ → List ℚ → ℚ)
    (train_data test_data : List Record) (epochs : ℕ) (t0 : ℚ) (pt : PhaseTimes)
    (e : TrainError)
    (h : train_fasttext ftTrain fit predict ps rs fs train_data test_data epochs t0 pt
          = .error e) :
    main_run ftTrain fit predict ps rs fs train_data test_data epochs t0 pt
      = .error e := by
  unfold main_run
  rw [h]

/-- Witness for the amended claim C3, at the empty-training-set failure. -/
theorem C3_variant_error_propagates_witness :
    main_run ftTrain0 sklearnFit predict0 metric0 metric0 metric0
      [] [⟨"b", 0⟩] 3 0 pt1 = .error .invalidInput :=
  C3_variant_error_propagates ftTrain0 sklearnFit predict0 metric0 metric0 metric0
    [] [⟨"b", 0⟩] 3 0 pt1 .invalidInput rfl

/-- Claim C4, counterexample: with 5 seconds of prediction and 2 seconds
of metric computation, the reported training time differs from the span
the claim describes (feature construction through fit completion): the
`time.time()` stop is taken only after the test-set predictions and the
four metric computations, so their time is included. -/
theorem C4_training_time_includes_eval :
    (train_fasttext ftTrain0 fitOk predict0 metric0 metric0 metric0
        [⟨"a", 1⟩] [⟨"b", 0⟩] 3 0 pt1).map FTRunResult.training_time
      ≠ Except.ok (spec_training_time pt1) := by
  have h1 : (train_fasttext ftTrain0 fitOk predict0 metric0 metric0 metric0
        [⟨"a", 1⟩] [⟨"b", 0⟩] 3 0 pt1).map FTRunResult.training_time
      = Except.ok (0 + pt1.prepare + pt1.embed + pt1.vectorize + pt1.fit
          + pt1.predict + pt1.metrics - 0) := rfl
  rw [h1]
  intro hcontra
  have h2 := Except.ok.inj hcontra
  rw [spec_training_time] at h2
  norm_num [pt1] at h2

/-- Claim C4, amended: for every variant run that completes, the reported
training time spans the whole of `train_fasttext` — data preparation,
embedding training, vectorization, classifier fitting, test-set
prediction, and metric computation — so it includes, rather than
excludes, the prediction and evaluation-metric time. -/
theorem C4_reported_time_spans_all_phases {α : Type}
    (ftTrain : List (List String) → ℕ → FTModel)
    (fit : List (List ℚ) → List ℚ → Except TrainError α)
    (predict : α → List (List ℚ) → List ℚ)
    (ps rs fs : List ℚ → List ℚ → ℚ)
    (train_data test_data : List Record) (epochs : ℕ) (t0 : ℚ) (pt : PhaseTimes)
    (h : (train_fasttext ftTrain fit predict ps rs fs train_data test_data
            epochs t0 pt).isOk = true) :
    (train_fasttext ftTrain fit predict ps rs fs train_data test_data
        epochs t0 pt).map FTRunResult.training_time
      = Except.ok (pt.prepare + pt.embed + pt.vectorize + pt.fit
          + pt.predict + pt.metrics) := by
  simp only [train_fasttext] at h ⊢
  split at h
  · simp [Except.isOk, Except.toBool] at h
  · simp only [Except.map]
    rw [Except.ok.injEq]
    ring

/-- Witness for the amended claim C4, at a successful concrete run with
the `pt1` phase durations. -/
theorem C4_reported_time_spans_all_phases_witness :
    (train_fasttext ftTrain0 fitOk predict0 metric0 metric0 metric0
        [⟨"a", 1⟩] [⟨"b", 0⟩] 3 0 pt1).map FTRunResult.training_time
      = Except.ok (pt1.prepare + pt1.embed + pt1.vectorize + pt1.fit
          + pt1.predict + pt1.metrics) :=
  C4_reported_time_spans_all_phases ftTrain0 fitOk predict0 metric0 metric0 metric0
    [⟨"a", 1⟩] [⟨"b", 0⟩] 3 0 pt1 rfl

/-- Claim C6: the FastText embedding model is trained on the tokenized
training texts only — for any two evaluation sets (in particular, for any
mutation of the evaluation text), `train_fasttext` computes the identical
embedding model, so evaluation text never influences its vocabulary or
vectors. -/
theorem C6_embedding_independent_of_eval {α : Type}
    (ftTrain : List (List String) → ℕ → FTModel)
    (fit : List (List ℚ) → List ℚ → Except TrainError α)
    (predict : α → List (List ℚ) → List ℚ)
    (ps rs fs : List ℚ → List ℚ → ℚ)
    (train_data test1 test2 : List Record) (epochs : ℕ) (t0 : ℚ) (pt : PhaseTimes) :
    (train_fasttext ftTrain fit predict ps rs fs train_data test1
        epochs t0 pt).map FTRunResult.model
      = (train_fasttext ftTrain fit predict ps rs fs train_data test2
          epochs t0 pt).map FTRunResult.model := by
  simp only [train_fasttext]
  split
  · rfl
  · rfl

/-- Claim C7: `text_to_vector` ignores out-of-vocabulary tokens entirely;
when no token of the input is in the model's vocabulary (all OOV, or empty
text) it returns the zero vector of the model's configured dimension
without error, and otherwise it returns the element-wise mean of the
looked-up token vectors. -/
theorem C7_vectorize_oov_zero_and_mean (t : Option String) (m : FTModel) :
    ((∀ w ∈ preprocess_text t, m.lookup w = none) →
      text_to_vector t m = List.replicate m.vector_size 0) ∧
    (∀ v vs, (preprocess_text t).filterMap m.lookup = v :: vs →
      text_to_vector t m = vecMean (v :: vs)) := by
  constructor
  · intro h
    have h0 : (preprocess_text t).filterMap m.lookup = [] :=
      List.filterMap_eq_nil_iff.mpr h
    unfold text_to_vector
    rw [h0]
    rfl
  · intro v vs hv
    unfold text_to_vector
    rw [hv]
    simp

/-- Witness for claim C7: an all-OOV text against an empty-vocabulary
model yields the zero vector, and a one-token in-vocabulary text yields
the mean of its single looked-up vector. -/
theorem C7_vectorize_oov_zero_and_mean_witness :
    text_to_vector (some "x y") (FTModel.mk 3 []) = List.replicate 3 0 ∧
    text_to_vector (some "A") (FTModel.mk 2 [("a", [1, 2])]) = vecMean [[1, 2]] :=
  ⟨(C7_vectorize_oov_zero_and_mean (some "x y") (FTModel.mk 3 [])).1 (by decide),
   (C7_vectorize_oov_zero_and_mean (some "A") (FTModel.mk 2 [("a", [1, 2])])).2
      [1, 2] [] (by decide)⟩

end QQP
